import Mathlib

/-!
Verification of the on-call resolution core of `oncallhunter`
(`src/jira.rs`, `src/main.rs`).

The provider interactions (`send_json_request` calls against the roster /
contact provider) are modelled as an environment of response functions: the
behaviour of each Rust function is a pure function of the provider responses.
Transport/deserialization failures of `crate::util::Error` are modelled by the
opaque type `UtilError`.
-/

deriving instance DecidableEq for Except

namespace Oncallhunter

/-- Opaque stand-in for `crate::util::Error` (transport/deserialization
failure of a provider call). -/
inductive UtilError where
  | mk (code : Nat)
deriving DecidableEq

/-- `jira::Error` from `src/jira.rs`. -/
inductive Error where
  | RequestOnCallPerson (source : UtilError)
  | RequestSchedule (source : UtilError)
  | RequestPhoneNumberForPerson (source : UtilError) (username : String)
  | NoOnCallPerson
  | ScheduleNotFound (schedule_name : String)
  | TooManySchedulesFound (schedule_name : String) (schedules_found : Nat)
  | NoPhoneNumber (username : String)
deriving DecidableEq

/-- `impl http_error::Error for Error { fn status_code }` from `src/jira.rs`,
with axum status codes written as their numeric values:
`UNPROCESSABLE_ENTITY = 422`, `IM_A_TEAPOT = 418`,
`INTERNAL_SERVER_ERROR = 500`. -/
def Error.status_code : Error → Nat
  | .RequestOnCallPerson _ => 422
  | .NoOnCallPerson => 418
  | .NoPhoneNumber _ => 418
  | .RequestPhoneNumberForPerson _ _ => 500
  | .RequestSchedule _ => 500
  | .ScheduleNotFound _ => 422
  | .TooManySchedulesFound _ _ => 422

/-- `struct Schedule { id: String }`. -/
structure Schedule where
  id : String
deriving DecidableEq

/-- `struct UserPhoneNumber { name, phone }`. -/
structure UserPhoneNumber where
  name : String
  phone : List String
deriving DecidableEq

/-- `struct OnCallResultData { on_call_recipients: Vec<String> }`. -/
structure OnCallResultData where
  on_call_recipients : List String
deriving DecidableEq

/-- `struct OnCallResult { data: OnCallResultData }`. -/
structure OnCallResult where
  data : OnCallResultData
deriving DecidableEq

/-- `struct UserContact { to, id, contact_method, enabled }`. -/
structure UserContact where
  «to» : String
  id : String
  contact_method : String
  enabled : Bool
deriving DecidableEq

/-- `struct ContactInformationResultData`. -/
structure ContactInformationResultData where
  id : String
  username : String
  full_name : String
  user_contacts : List UserContact
deriving DecidableEq

/-- `struct ContactInformationResult { data }`. -/
structure ContactInformationResult where
  data : ContactInformationResultData
deriving DecidableEq

/-- `struct ScheduleRequestById { id: String }` from `src/main.rs`. -/
structure ScheduleRequestById where
  id : String
deriving DecidableEq

/-- `struct ScheduleRequestByName { name: String }` from `src/main.rs`. -/
structure ScheduleRequestByName where
  name : String
deriving DecidableEq

/-- `enum ScheduleIdentifier` from `src/main.rs`. -/
inductive ScheduleIdentifier where
  | ScheduleById (r : ScheduleRequestById)
  | ScheduleByName (r : ScheduleRequestByName)
deriving DecidableEq

/-- `struct AlertInfo { username, phone_number, full_information }` from
`src/main.rs`. -/
structure AlertInfo where
  username : String
  phone_number : String
  full_information : List UserPhoneNumber
deriving DecidableEq

/-- The roster/contact provider, as the responses it gives to the three
endpoints the code calls: schedule search by name query, on-call recipients
by schedule id, and contact information by username. Each response either
fails at the transport/deserialization layer (`UtilError`) or yields the
deserialized value. -/
structure JiraEnv where
  schedules : String → Except UtilError (List Schedule)
  oncall : String → Except UtilError OnCallResult
  contacts : String → Except UtilError ContactInformationResult

/-- `fn format_phone_number(number: String) -> String`:
`number.replace("-", "")` removes every occurrence of the single-character
pattern `"-"`, then `format!("+{}", number)` prefixes a plus sign. -/
def format_phone_number (number : String) : String :=
  let number := String.mk (number.data.filter (fun c => c ≠ '-'))
  "+" ++ number

/-- Lexicographic comparison of character sequences; the order Rust's
`Vec::<String>::sort()` sorts by (byte-lexicographic, which agrees with
character order on the data in scope). -/
def charListLe : List Char → List Char → Bool
  | [], _ => true
  | _ :: _, [] => false
  | a :: as, b :: bs =>
    if a < b then true
    else if b < a then false
    else charListLe as bs

/-- Lexicographic `≤` on strings, the order used by `numbers.sort()`. -/
def string_le (a b : String) : Bool :=
  charListLe a.data b.data

/-- The sort relation on strings, as a decidable Prop-level relation. -/
def StrLe (a b : String) : Prop := string_le a b = true

instance : DecidableRel StrLe := fun _ _ => inferInstanceAs (Decidable (_ = true))

/-- `Vec::dedup()`: removes consecutive repeated elements, keeping the first
of each run. -/
def rustDedup {α : Type} [DecidableEq α] : List α → List α
  | [] => []
  | [a] => [a]
  | a :: b :: rest =>
    if a = b then rustDedup (b :: rest) else a :: rustDedup (b :: rest)

/-- The pure tail of `fn get_phone_number` (`src/jira.rs`), applied to the
deserialized `user_contacts` of a `ContactInformationResult`: filter to
contact methods equal to "voice" or "sms", normalize each destination with
`format_phone_number`, sort, deduplicate. -/
def phone_numbers_from_contacts (user_contacts : List UserContact) : List String :=
  let numbers :=
    (user_contacts.filter
        (fun user_contact =>
          user_contact.contact_method == "voice" || user_contact.contact_method == "sms")).map
      (fun user_contact => format_phone_number user_contact.«to»)
  rustDedup (List.insertionSort StrLe numbers)

/-- `async fn get_phone_number(http, base_url, username)`: fetch the user's
contact information (`GET users/{username}?expand=contact`), then apply the
pure filtering/normalizing/sorting/deduplicating pipeline. A transport or
deserialization failure of the fetch is returned unchanged as
`crate::util::Error`. -/
def get_phone_number (http : JiraEnv) (username : String) :
    Except UtilError (List String) := do
  let contact_information ← http.contacts username
  Except.ok (phone_numbers_from_contacts contact_information.data.user_contacts)

/-- `async fn get_schedule_id_by_name(schedule_name, http, jira_config)`:
query `GET schedules?query={schedule_name}`; a transport failure becomes
`Error::RequestSchedule`; `ensure!(schedules.len() == 1, TooManySchedulesFound)`
fires whenever the length differs from one; then `schedules.get(0)` with
`ScheduleNotFound` context retrieves the single schedule and its id is
returned. -/
def get_schedule_id_by_name (http : JiraEnv) (schedule_name : String) :
    Except Error String := do
  let schedules ←
    match http.schedules schedule_name with
    | Except.ok v => Except.ok v
    | Except.error e => Except.error (Error.RequestSchedule e)
  if schedules.length = 1 then
    match schedules.head? with
    | some schedule => Except.ok schedule.id
    | none => Except.error (Error.ScheduleNotFound schedule_name)
  else
    Except.error (Error.TooManySchedulesFound schedule_name schedules.length)

/-- The schedule-id resolution step of `get_oncall_number`: a by-id
identifier is used directly, a by-name identifier goes through
`get_schedule_id_by_name`. -/
def resolve_schedule_id (http : JiraEnv) (schedule : ScheduleIdentifier) :
    Except Error String :=
  match schedule with
  | ScheduleIdentifier.ScheduleById i => Except.ok i.id
  | ScheduleIdentifier.ScheduleByName n => get_schedule_id_by_name http n.name

/-- The `for user in persons_on_call.data.on_call_recipients` loop of
`get_oncall_number`: look up each recipient's phone numbers in order,
wrapping a failed lookup in `Error::RequestPhoneNumberForPerson` with the
username attached, and push a `UserPhoneNumber` per recipient into the
result list. -/
def resolve_recipients (http : JiraEnv) : List String → Except Error (List UserPhoneNumber)
  | [] => Except.ok []
  | user :: rest => do
    let phone_number ←
      match get_phone_number http user with
      | Except.ok v => Except.ok v
      | Except.error e => Except.error (Error.RequestPhoneNumberForPerson e user)
    let tail ← resolve_recipients http rest
    Except.ok ({ name := user, phone := phone_number } :: tail)

/-- `async fn get_oncall_number(schedule, http, config)`: resolve the
schedule id, fetch `GET schedules/{schedule_id}/on-calls?flat=true`
(transport failure becomes `Error::RequestOnCallPerson`), fail with
`NoOnCallPerson` when the recipient list has no first element, resolve every
recipient's phone numbers, fail with `NoOnCallPerson` when the assembled
list has no first element, fail with `NoPhoneNumber` when the first entry's
phone list has no first element, and otherwise assemble the `AlertInfo`. -/
def get_oncall_number (http : JiraEnv) (schedule : ScheduleIdentifier) :
    Except Error AlertInfo := do
  let schedule_id ← resolve_schedule_id http schedule
  let persons_on_call ←
    match http.oncall schedule_id with
    | Except.ok v => Except.ok v
    | Except.error e => Except.error (Error.RequestOnCallPerson e)
  match persons_on_call.data.on_call_recipients.head? with
  | none => Except.error Error.NoOnCallPerson
  | some _ => do
    let result_list ← resolve_recipients http persons_on_call.data.on_call_recipients
    match result_list.head? with
    | none => Except.error Error.NoOnCallPerson
    | some user =>
      match user.phone.head? with
      | none => Except.error (Error.NoPhoneNumber user.name)
      | some phone_number =>
        Except.ok
          { username := user.name
            phone_number := phone_number
            full_information := result_list }

/-- Contact list used in concrete tests: two duplicate voice/sms entries and
one email entry. -/
def contactsAlice : List UserContact :=
  [{ «to» := "1-2", id := "c1", contact_method := "voice", enabled := true },
   { «to» := "1-2", id := "c2", contact_method := "sms", enabled := true },
   { «to» := "9", id := "c3", contact_method := "email", enabled := true }]

/-- Contact list used in concrete tests: one voice entry. -/
def contactsBob : List UserContact :=
  [{ «to» := "3", id := "c4", contact_method := "voice", enabled := true }]

/-- Contact list used in concrete tests: email only, so no usable phone
number. -/
def contactsCarol : List UserContact :=
  [{ «to» := "7", id := "c5", contact_method := "email", enabled := true }]

/-- A concrete provider for witnesses: schedule query "Team A" finds the
single schedule "s1", "Empty" finds none, "Dup" finds two; schedule "s1" has
recipients alice and bob, "s2" nobody, "s3" only carol (who has no phone),
"s4" alice then carol; contact lookups succeed for alice, bob and carol. -/
def envW : JiraEnv where
  schedules := fun q =>
    if q = "Team A" then Except.ok [{ id := "s1" }]
    else if q = "Empty" then Except.ok []
    else if q = "Dup" then Except.ok [{ id := "a" }, { id := "b" }]
    else Except.error (UtilError.mk 1)
  oncall := fun sid =>
    if sid = "s1" then Except.ok { data := { on_call_recipients := ["alice", "bob"] } }
    else if sid = "s2" then Except.ok { data := { on_call_recipients := [] } }
    else if sid = "s3" then Except.ok { data := { on_call_recipients := ["carol"] } }
    else if sid = "s4" then Except.ok { data := { on_call_recipients := ["alice", "carol"] } }
    else Except.error (UtilError.mk 2)
  contacts := fun u =>
    if u = "alice" then
      Except.ok { data :=
        { id := "1", username := "alice", full_name := "Alice", user_contacts := contactsAlice } }
    else if u = "bob" then
      Except.ok { data :=
        { id := "2", username := "bob", full_name := "Bob", user_contacts := contactsBob } }
    else if u = "carol" then
      Except.ok { data :=
        { id := "3", username := "carol", full_name := "Carol", user_contacts := contactsCarol } }
    else Except.error (UtilError.mk 3)

/-- A second concrete provider: schedule "x" has the single recipient
"alice", and alice's only contact method is email, so she has no usable
phone number. -/
def envA : JiraEnv where
  schedules := fun _ => Except.error (UtilError.mk 0)
  oncall := fun sid =>
    if sid = "x" then Except.ok { data := { on_call_recipients := ["alice"] } }
    else Except.error (UtilError.mk 0)
  contacts := fun u =>
    if u = "alice" then
      Except.ok { data :=
        { id := "1", username := "alice", full_name := "Alice",
          user_contacts :=
            [{ «to» := "9", id := "c9", contact_method := "email", enabled := true }] } }
    else Except.error (UtilError.mk 0)

/-- The `AlertInfo` produced for schedule "s1" of `envW`. -/
def infoS1 : AlertInfo :=
  { username := "alice", phone_number := "+12"
    full_information := [{ name := "alice", phone := ["+12"] }, { name := "bob", phone := ["+3"] }] }

/-- The `AlertInfo` produced for schedule "s4" of `envW`: carol keeps her
entry even though her phone list is empty. -/
def infoS4 : AlertInfo :=
  { username := "alice", phone_number := "+12"
    full_information := [{ name := "alice", phone := ["+12"] }, { name := "carol", phone := [] }] }

example : format_phone_number "555-123-4567" = "+5551234567" := by decide
example : format_phone_number "" = "+" := by decide

example : string_le "+12" "+3" = true := by decide
example : List.insertionSort StrLe ["+3", "+12", "+12"] = ["+12", "+12", "+3"] := by decide

example : phone_numbers_from_contacts contactsAlice = ["+12"] := by decide
example : phone_numbers_from_contacts contactsCarol = [] := by decide
example : get_schedule_id_by_name envW "Team A" = Except.ok "s1" := by decide
example : get_schedule_id_by_name envW "Empty" =
    Except.error (Error.TooManySchedulesFound "Empty" 0) := by decide
example : get_schedule_id_by_name envW "Dup" =
    Except.error (Error.TooManySchedulesFound "Dup" 2) := by decide
example :
    get_oncall_number envW (ScheduleIdentifier.ScheduleById { id := "s1" }) =
      Except.ok
        { username := "alice", phone_number := "+12"
          full_information :=
            [{ name := "alice", phone := ["+12"] }, { name := "bob", phone := ["+3"] }] } := by
  decide
example :
    get_oncall_number envW (ScheduleIdentifier.ScheduleByName { name := "Team A" }) =
      get_oncall_number envW (ScheduleIdentifier.ScheduleById { id := "s1" }) := by
  decide
example :
    get_oncall_number envW (ScheduleIdentifier.ScheduleById { id := "s2" }) =
      Except.error Error.NoOnCallPerson := by decide
example :
    get_oncall_number envW (ScheduleIdentifier.ScheduleById { id := "s3" }) =
      Except.error (Error.NoPhoneNumber "carol") := by decide
example :
    get_oncall_number envW (ScheduleIdentifier.ScheduleById { id := "s4" }) =
      Except.ok
        { username := "alice", phone_number := "+12"
          full_information :=
            [{ name := "alice", phone := ["+12"] }, { name := "carol", phone := [] }] } := by
  decide

theorem charListLe_total (a b : List Char) : charListLe a b = true ∨ charListLe b a = true := by
  induction a generalizing b with
  | nil => left; rfl
  | cons x xs ih =>
    cases b with
    | nil => right; rfl
    | cons y ys =>
      rcases lt_trichotomy x y with hxy | hxy | hxy
      · left; simp [charListLe, hxy]
      · subst hxy
        rcases ih ys with h | h
        · left; simp [charListLe, lt_irrefl, h]
        · right; simp [charListLe, lt_irrefl, h]
      · right; simp [charListLe, hxy]

theorem charListLe_trans {a b c : List Char} (hab : charListLe a b = true)
    (hbc : charListLe b c = true) : charListLe a c = true := by
  induction a generalizing b c with
  | nil => rfl
  | cons x xs ih =>
    cases b with
    | nil => simp [charListLe] at hab
    | cons y ys =>
      cases c with
      | nil => simp [charListLe] at hbc
      | cons z zs =>
        simp only [charListLe] at hab hbc ⊢
        rcases lt_trichotomy x y with hxy | hxy | hxy
        · rcases lt_trichotomy y z with hyz | hyz | hyz
          · simp [lt_trans hxy hyz]
          · subst hyz; simp [hxy]
          · simp [asymm hyz, hyz] at hbc
        · subst hxy
          rcases lt_trichotomy x z with hxz | hxz | hxz
          · simp [hxz]
          · subst hxz
            simp only [lt_irrefl, if_false] at hab hbc ⊢
            exact ih hab hbc
          · simp [asymm hxz, hxz] at hbc
        · simp [asymm hxy, hxy] at hab

theorem charListLe_antisymm {a b : List Char} (hab : charListLe a b = true)
    (hba : charListLe b a = true) : a = b := by
  induction a generalizing b with
  | nil =>
    cases b with
    | nil => rfl
    | cons y ys => simp [charListLe] at hba
  | cons x xs ih =>
    cases b with
    | nil => simp [charListLe] at hab
    | cons y ys =>
      simp only [charListLe] at hab hba
      rcases lt_trichotomy x y with hxy | hxy | hxy
      · simp [asymm hxy, hxy] at hba
      · subst hxy
        simp only [lt_irrefl, if_false] at hab hba
        rw [ih hab hba]
      · simp [asymm hxy, hxy] at hab

theorem StrLe_antisymm {a b : String} (hab : StrLe a b) (hba : StrLe b a) : a = b := by
  cases a; cases b
  exact congrArg String.mk (charListLe_antisymm hab hba)


theorem mem_rustDedup {α : Type} [DecidableEq α] (x : α) (l : List α) :
    x ∈ rustDedup l ↔ x ∈ l := by
  induction l with
  | nil => simp [rustDedup]
  | cons a t ih =>
    cases t with
    | nil => simp [rustDedup]
    | cons b rest =>
      by_cases hab : a = b
      · subst hab
        rw [rustDedup, if_pos rfl]
        rw [ih]
        simp [List.mem_cons]
      · rw [rustDedup, if_neg hab]
        simp [List.mem_cons, ih]

theorem rustDedup_sublist {α : Type} [DecidableEq α] (l : List α) :
    List.Sublist (rustDedup l) l := by
  induction l with
  | nil => simp [rustDedup]
  | cons a t ih =>
    cases t with
    | nil => simp [rustDedup]
    | cons b rest =>
      by_cases hab : a = b
      · subst hab
        rw [rustDedup, if_pos rfl]
        exact ih.cons a
      · rw [rustDedup, if_neg hab]
        exact ih.cons₂ a

theorem sorted_rustDedup {l : List String} (h : l.Sorted StrLe) :
    (rustDedup l).Sorted StrLe :=
  h.sublist (rustDedup_sublist l)

theorem nodup_rustDedup {l : List String} (h : l.Sorted StrLe) : (rustDedup l).Nodup := by
  induction l with
  | nil => simp [rustDedup]
  | cons a t ih =>
    cases t with
    | nil => simp [rustDedup]
    | cons b rest =>
      rw [List.sorted_cons] at h
      by_cases hab : a = b
      · subst hab
        rw [rustDedup, if_pos rfl]
        exact ih h.2
      · rw [rustDedup, if_neg hab]
        rw [List.nodup_cons]
        refine ⟨?_, ih h.2⟩
        intro hmem
        rw [mem_rustDedup] at hmem
        rcases List.mem_cons.mp hmem with heq | hin
        · exact hab heq
        · have hba : StrLe b a := (List.sorted_cons.mp h.2).1 a hin
          have hab' : StrLe a b := h.1 b (List.mem_cons_self b rest)
          exact hab (StrLe_antisymm hab' hba)

theorem phone_numbers_sorted (user_contacts : List UserContact) :
    (phone_numbers_from_contacts user_contacts).Sorted StrLe := by
  haveI : IsTotal String StrLe := ⟨fun a b => charListLe_total a.data b.data⟩
  haveI : IsTrans String StrLe := ⟨fun _ _ _ hab hbc => charListLe_trans hab hbc⟩
  exact sorted_rustDedup (List.sorted_insertionSort StrLe _)

theorem phone_numbers_nodup (user_contacts : List UserContact) :
    (phone_numbers_from_contacts user_contacts).Nodup := by
  haveI : IsTotal String StrLe := ⟨fun a b => charListLe_total a.data b.data⟩
  haveI : IsTrans String StrLe := ⟨fun _ _ _ hab hbc => charListLe_trans hab hbc⟩
  exact nodup_rustDedup (List.sorted_insertionSort StrLe _)

theorem mem_phone_numbers (x : String) (user_contacts : List UserContact) :
    x ∈ phone_numbers_from_contacts user_contacts ↔
      ∃ uc ∈ user_contacts,
        (uc.contact_method = "voice" ∨ uc.contact_method = "sms") ∧
          x = format_phone_number uc.«to» := by
  unfold phone_numbers_from_contacts
  rw [mem_rustDedup, (List.perm_insertionSort StrLe _).mem_iff]
  simp only [List.mem_map, List.mem_filter, Bool.or_eq_true, beq_iff_eq]
  constructor
  · rintro ⟨uc, ⟨hmem, hmethod⟩, hfmt⟩
    exact ⟨uc, hmem, hmethod, hfmt.symm⟩
  · rintro ⟨uc, hmem, hmethod, hfmt⟩
    exact ⟨uc, ⟨hmem, hmethod⟩, hfmt.symm⟩

theorem get_phone_number_ok {http : JiraEnv} {username : String} {ph : List String}
    (h : get_phone_number http username = Except.ok ph) :
    ∃ ci, http.contacts username = Except.ok ci ∧
      ph = phone_numbers_from_contacts ci.data.user_contacts := by
  unfold get_phone_number at h
  cases hci : http.contacts username with
  | error e => rw [hci] at h; simp [Bind.bind, Except.bind] at h
  | ok ci =>
    rw [hci] at h
    simp only [Bind.bind, Except.bind, Except.ok.injEq] at h
    exact ⟨ci, rfl, h.symm⟩

theorem resolve_recipients_ok {http : JiraEnv} :
    ∀ {us : List String} {rl : List UserPhoneNumber},
      resolve_recipients http us = Except.ok rl →
      rl.map UserPhoneNumber.name = us ∧
        ∀ k entry, rl.get? k = some entry →
          get_phone_number http entry.name = Except.ok entry.phone := by
  intro us
  induction us with
  | nil =>
    intro rl h
    simp only [resolve_recipients, Except.ok.injEq] at h
    subst h
    simp
  | cons user rest ih =>
    intro rl h
    unfold resolve_recipients at h
    cases hpn : get_phone_number http user with
    | error e => rw [hpn] at h; simp [Bind.bind, Except.bind] at h
    | ok phone_number =>
      rw [hpn] at h
      simp only [Bind.bind, Except.bind] at h
      cases htail : resolve_recipients http rest with
      | error e => rw [htail] at h; simp at h
      | ok tail =>
        rw [htail] at h
        simp only [Except.ok.injEq] at h
        subst h
        obtain ⟨hmap, hidx⟩ := ih htail
        refine ⟨by simp [hmap], ?_⟩
        intro k entry hk
        cases k with
        | zero =>
          simp only [List.get?] at hk
          cases hk
          exact hpn
        | succ k =>
          simp only [List.get?] at hk
          exact hidx k entry hk

theorem resolve_recipients_cons_ok {http : JiraEnv} {user : String} {rest : List String}
    {rl : List UserPhoneNumber} {ph : List String}
    (hpn : get_phone_number http user = Except.ok ph)
    (h : resolve_recipients http (user :: rest) = Except.ok rl) :
    ∃ tail, rl = { name := user, phone := ph } :: tail ∧
      resolve_recipients http rest = Except.ok tail := by
  unfold resolve_recipients at h
  rw [hpn] at h
  simp only [Bind.bind, Except.bind] at h
  cases htail : resolve_recipients http rest with
  | error e => rw [htail] at h; simp at h
  | ok tail =>
    rw [htail] at h
    simp only [Except.ok.injEq] at h
    exact ⟨tail, h.symm, rfl⟩

theorem get_oncall_number_ok {http : JiraEnv} {s : ScheduleIdentifier} {info : AlertInfo}
    (h : get_oncall_number http s = Except.ok info) :
    ∃ schedule_id persons_on_call result_list user,
      resolve_schedule_id http s = Except.ok schedule_id ∧
        http.oncall schedule_id = Except.ok persons_on_call ∧
        resolve_recipients http persons_on_call.data.on_call_recipients =
          Except.ok result_list ∧
        info.full_information = result_list ∧
        result_list.head? = some user ∧
        info.username = user.name ∧
        user.phone.head? = some info.phone_number := by
  unfold get_oncall_number at h
  cases hsid : resolve_schedule_id http s with
  | error e => rw [hsid] at h; simp [Bind.bind, Except.bind] at h
  | ok schedule_id =>
    rw [hsid] at h
    simp only [Bind.bind, Except.bind] at h
    cases hoc : http.oncall schedule_id with
    | error e => rw [hoc] at h; simp at h
    | ok persons_on_call =>
      rw [hoc] at h
      simp only [] at h
      cases hhead : persons_on_call.data.on_call_recipients.head? with
      | none => rw [hhead] at h; simp at h
      | some u0 =>
        rw [hhead] at h
        dsimp only at h
        cases hrl : resolve_recipients http persons_on_call.data.on_call_recipients with
        | error e => rw [hrl] at h; simp [Bind.bind, Except.bind] at h
        | ok result_list =>
          rw [hrl] at h
          simp only [Bind.bind, Except.bind] at h
          cases hh : result_list.head? with
          | none => rw [hh] at h; simp at h
          | some user =>
            rw [hh] at h
            dsimp only at h
            cases hp : user.phone.head? with
            | none => rw [hp] at h; simp at h
            | some phone_number =>
              rw [hp] at h
              dsimp only at h
              simp only [Except.ok.injEq] at h
              subst h
              exact ⟨schedule_id, persons_on_call, result_list, user, rfl, hoc, hrl, rfl,
                hh, rfl, hp⟩

/-- C1: the claim says zero matching schedules fail with
`ScheduleNotFound{scheduleName}`. The code checks `schedules.len() == 1`
first, so an empty response fails with `TooManySchedulesFound` carrying
count 0 and the `ScheduleNotFound` branch is unreachable, contradicting the
code's own comment; the two-or-more and exactly-one cases behave as
claimed. -/
theorem c1_zero_matches_yield_too_many_schedules_found :
    get_schedule_id_by_name envW "Empty" =
        Except.error (Error.TooManySchedulesFound "Empty" 0) ∧
      (Except.error (Error.TooManySchedulesFound "Empty" 0) :
          Except Error String) ≠
        Except.error (Error.ScheduleNotFound "Empty") ∧
      get_schedule_id_by_name envW "Dup" =
        Except.error (Error.TooManySchedulesFound "Dup" 2) ∧
      get_schedule_id_by_name envW "Team A" = Except.ok "s1" := by
  decide

/-- C2: the claim says every transport/deserialization variant maps to a
server-error (5xx) status. `RequestSchedule` and
`RequestPhoneNumberForPerson` do map to 500, but `RequestOnCallPerson` maps
to 422 (`UNPROCESSABLE_ENTITY`), which is not a server-error status; the
remaining variants map as claimed (418 shared by `NoOnCallPerson` and
`NoPhoneNumber`, 422 for the schedule-name errors). -/
theorem c2_request_oncall_person_status_not_server_error :
    Error.status_code (Error.RequestOnCallPerson (UtilError.mk 0)) = 422 ∧
      ¬ 500 ≤ Error.status_code (Error.RequestOnCallPerson (UtilError.mk 0)) ∧
      Error.status_code (Error.RequestSchedule (UtilError.mk 0)) = 500 ∧
      Error.status_code (Error.RequestPhoneNumberForPerson (UtilError.mk 0) "alice") = 500 ∧
      Error.status_code Error.NoOnCallPerson = 418 ∧
      Error.status_code (Error.NoPhoneNumber "alice") = 418 ∧
      Error.status_code (Error.ScheduleNotFound "Team A") = 422 ∧
      Error.status_code (Error.TooManySchedulesFound "Team A" 2) = 422 := by
  decide

/-- C3 counterexample: the normalizer is not a fixed point on the
already-normalized string "+5551234567" — it prefixes another plus sign. -/
theorem c3_normalizer_not_fixed_point :
    format_phone_number "+5551234567" ≠ "+5551234567" := by
  decide

/-- C3 (amended): applying the normalizer to the already-normalized string
"+5551234567" yields "++5551234567", because the plus prefix is added
unconditionally; hence applying the normalizer twice differs from applying
it once on hyphen-free, already-prefixed input. -/
theorem c3_normalizer_prefixes_plus_again :
    format_phone_number "+5551234567" = "++5551234567" ∧
      format_phone_number (format_phone_number "555-123-4567") = "++5551234567" ∧
      format_phone_number (format_phone_number "555-123-4567") ≠
        format_phone_number "555-123-4567" := by
  decide

/-- C4: whenever the contact fetch for a username succeeds, the Contact
Resolver returns (without error) exactly the deduplicated,
lexically-ascending-sorted list of normalized destinations of the entries
whose method is exactly "voice" or "sms"; on the three-contact example the
result is ["+12"], and a contact list with no voice/sms entries yields the
empty list. -/
theorem c4_contact_resolver_filters_sorts_dedups (http : JiraEnv) (username : String)
    (ci : ContactInformationResult)
    (hci : http.contacts username = Except.ok ci) :
    get_phone_number http username =
        Except.ok (phone_numbers_from_contacts ci.data.user_contacts) ∧
      List.Sorted StrLe (phone_numbers_from_contacts ci.data.user_contacts) ∧
      (phone_numbers_from_contacts ci.data.user_contacts).Nodup ∧
      (∀ x, x ∈ phone_numbers_from_contacts ci.data.user_contacts ↔
        ∃ uc ∈ ci.data.user_contacts,
          (uc.contact_method = "voice" ∨ uc.contact_method = "sms") ∧
            x = format_phone_number uc.«to») ∧
      phone_numbers_from_contacts contactsAlice = ["+12"] ∧
      phone_numbers_from_contacts contactsCarol = [] := by
  refine ⟨?_, phone_numbers_sorted _, phone_numbers_nodup _,
    fun x => mem_phone_numbers x _, by decide, by decide⟩
  unfold get_phone_number
  rw [hci]
  rfl

/-- Witness for C4 at the concrete provider `envW` and username "alice". -/
theorem c4_witness :
    envW.contacts "alice" =
        Except.ok { data :=
          { id := "1", username := "alice", full_name := "Alice",
            user_contacts := contactsAlice } } ∧
      get_phone_number envW "alice" = Except.ok (phone_numbers_from_contacts contactsAlice) ∧
      phone_numbers_from_contacts contactsAlice = ["+12"] :=
  ⟨by decide,
    (c4_contact_resolver_filters_sorts_dedups envW "alice"
        { data :=
          { id := "1", username := "alice", full_name := "Alice",
            user_contacts := contactsAlice } } (by decide)).1,
    by decide⟩

/-- C9: the normalizer is a pure total function that removes the hyphen
characters of any input and prefixes a plus sign, with no other
transformation; in particular it maps "555-123-4567" to "+5551234567" and
the empty string to "+". -/
theorem c9_normalizer_strips_hyphens_prefixes_plus :
    (∀ s : String,
        format_phone_number s = String.mk ('+' :: s.data.filter (fun c => c ≠ '-'))) ∧
      format_phone_number "555-123-4567" = "+5551234567" ∧
      format_phone_number "" = "+" := by
  refine ⟨fun s => ?_, by decide, by decide⟩
  rfl

/-- C5: every `AlertInfo` successfully constructed by `get_oncall_number`
has a non-empty `full_information`, its `username` and `phone_number` are
the first entry's name and first phone number, and every entry's phone list
is sorted and deduplicated. -/
theorem c5_alert_info_invariants (http : JiraEnv) (s : ScheduleIdentifier) (info : AlertInfo)
    (h : get_oncall_number http s = Except.ok info) :
    info.full_information ≠ [] ∧
      (∀ u, info.full_information.head? = some u →
        info.username = u.name ∧ u.phone.head? = some info.phone_number) ∧
      ∀ u ∈ info.full_information, List.Sorted StrLe u.phone ∧ u.phone.Nodup := by
  obtain ⟨sid, poc, rl, user, hsid, hoc, hrl, hfull, hhead, hname, hphone⟩ :=
    get_oncall_number_ok h
  subst hfull
  refine ⟨?_, ?_, ?_⟩
  · intro hnil
    rw [hnil] at hhead
    cases hhead
  · intro u hu
    rw [hu] at hhead
    cases hhead
    exact ⟨hname, hphone⟩
  · intro u hu
    obtain ⟨k, hk⟩ := List.mem_iff_get?.mp hu
    have hpn := (resolve_recipients_ok hrl).2 k u hk
    obtain ⟨ci, _, hph⟩ := get_phone_number_ok hpn
    rw [hph]
    exact ⟨phone_numbers_sorted _, phone_numbers_nodup _⟩

/-- Witness for C5 at the concrete provider `envW` and schedule id "s1". -/
theorem c5_witness :
    get_oncall_number envW (ScheduleIdentifier.ScheduleById { id := "s1" }) =
        Except.ok infoS1 ∧
      infoS1.full_information ≠ [] ∧
        (∀ u, infoS1.full_information.head? = some u →
          infoS1.username = u.name ∧ u.phone.head? = some infoS1.phone_number) ∧
        ∀ u ∈ infoS1.full_information, List.Sorted StrLe u.phone ∧ u.phone.Nodup :=
  ⟨by decide,
    c5_alert_info_invariants envW (ScheduleIdentifier.ScheduleById { id := "s1" }) infoS1
      (by decide)⟩

/-- C6: whenever the on-call endpoint answers with an empty recipient list,
`get_oncall_number` fails with `NoOnCallPerson`, an error constructor
distinct from all three transport/deserialization constructors. -/
theorem c6_empty_recipients_fail_no_oncall_person (http : JiraEnv) (s : ScheduleIdentifier)
    (sid : String) (r : OnCallResult)
    (hsid : resolve_schedule_id http s = Except.ok sid)
    (hoc : http.oncall sid = Except.ok r)
    (hrec : r.data.on_call_recipients = []) :
    get_oncall_number http s = Except.error Error.NoOnCallPerson ∧
      ∀ e u, Error.NoOnCallPerson ≠ Error.RequestOnCallPerson e ∧
        Error.NoOnCallPerson ≠ Error.RequestSchedule e ∧
        Error.NoOnCallPerson ≠ Error.RequestPhoneNumberForPerson e u := by
  constructor
  · unfold get_oncall_number
    rw [hsid]
    simp only [Bind.bind, Except.bind]
    rw [hoc]
    dsimp only
    rw [hrec]
    rfl
  · intro e u
    exact ⟨fun h => Error.noConfusion h, fun h => Error.noConfusion h,
      fun h => Error.noConfusion h⟩

/-- Witness for C6 at the concrete provider `envW` and schedule id "s2",
whose recipient list is empty. -/
theorem c6_witness :
    get_oncall_number envW (ScheduleIdentifier.ScheduleById { id := "s2" }) =
        Except.error Error.NoOnCallPerson ∧
      Error.NoOnCallPerson ≠ Error.RequestOnCallPerson (UtilError.mk 0) :=
  ⟨(c6_empty_recipients_fail_no_oncall_person envW
      (ScheduleIdentifier.ScheduleById { id := "s2" }) "s2"
      { data := { on_call_recipients := [] } } (by decide) (by decide) (by decide)).1,
    ((c6_empty_recipients_fail_no_oncall_person envW
      (ScheduleIdentifier.ScheduleById { id := "s2" }) "s2"
      { data := { on_call_recipients := [] } } (by decide) (by decide) (by decide)).2
      (UtilError.mk 0) "alice").1⟩

/-- C7: when the first on-call recipient's resolved phone-number list is
empty (and every contact lookup succeeded), `get_oncall_number` fails with
`NoPhoneNumber` carrying that recipient's username. -/
theorem c7_first_recipient_without_phone (http : JiraEnv) (s : ScheduleIdentifier)
    (sid : String) (r : OnCallResult) (user : String) (rest : List String)
    (rl : List UserPhoneNumber)
    (hsid : resolve_schedule_id http s = Except.ok sid)
    (hoc : http.oncall sid = Except.ok r)
    (hrec : r.data.on_call_recipients = user :: rest)
    (hrl : resolve_recipients http (user :: rest) = Except.ok rl)
    (hpn : get_phone_number http user = Except.ok []) :
    get_oncall_number http s = Except.error (Error.NoPhoneNumber user) := by
  obtain ⟨tail, htl, _⟩ := resolve_recipients_cons_ok hpn hrl
  subst htl
  unfold get_oncall_number
  rw [hsid]
  simp only [Bind.bind, Except.bind]
  rw [hoc]
  dsimp only
  rw [hrec]
  dsimp only [List.head?_cons]
  rw [hrl]
  rfl

/-- Witness for C7: the concrete provider `envA` has the single recipient
"alice" on schedule "x", and alice has zero voice/sms contacts, so the
failure is `NoPhoneNumber` with username "alice". -/
theorem c7_witness :
    get_oncall_number envA (ScheduleIdentifier.ScheduleById { id := "x" }) =
      Except.error (Error.NoPhoneNumber "alice") :=
  c7_first_recipient_without_phone envA (ScheduleIdentifier.ScheduleById { id := "x" })
    "x" { data := { on_call_recipients := ["alice"] } } "alice" []
    [{ name := "alice", phone := [] }] (by decide) (by decide) (by decide) (by decide)
    (by decide)

/-- C8: whenever the Schedule Resolver resolves a name to id `x`,
`get_oncall_number` on the by-name identifier produces exactly the same
result as on the by-id identifier carrying `x`, against the same provider.
-/
theorem c8_by_name_matches_by_id (http : JiraEnv) (n x : String)
    (h : get_schedule_id_by_name http n = Except.ok x) :
    get_oncall_number http (ScheduleIdentifier.ScheduleByName { name := n }) =
      get_oncall_number http (ScheduleIdentifier.ScheduleById { id := x }) := by
  unfold get_oncall_number resolve_schedule_id
  dsimp only
  rw [h]

/-- Witness for C8 at the concrete provider `envW`: name "Team A" resolves
to id "s1" and both paths agree. -/
theorem c8_witness :
    get_schedule_id_by_name envW "Team A" = Except.ok "s1" ∧
      get_oncall_number envW (ScheduleIdentifier.ScheduleByName { name := "Team A" }) =
        get_oncall_number envW (ScheduleIdentifier.ScheduleById { id := "s1" }) :=
  ⟨by decide, c8_by_name_matches_by_id envW "Team A" "s1" (by decide)⟩

/-- C10: with a non-empty recipient list, successful per-recipient lookups
and a non-empty phone list for the first recipient, resolution succeeds even
if later recipients have empty phone lists; the assembled `full_information`
is the resolved list, which has exactly one entry per recipient in recipient
order, each carrying that recipient's resolved (possibly empty) phone list.
-/
theorem c10_only_first_phone_list_gates_failure (http : JiraEnv) (s : ScheduleIdentifier)
    (sid : String) (r : OnCallResult) (user : String) (rest : List String)
    (rl : List UserPhoneNumber) (p : String) (ps : List String)
    (hsid : resolve_schedule_id http s = Except.ok sid)
    (hoc : http.oncall sid = Except.ok r)
    (hrec : r.data.on_call_recipients = user :: rest)
    (hrl : resolve_recipients http (user :: rest) = Except.ok rl)
    (hpn : get_phone_number http user = Except.ok (p :: ps)) :
    get_oncall_number http s =
        Except.ok { username := user, phone_number := p, full_information := rl } ∧
      rl.map UserPhoneNumber.name = user :: rest ∧
      ∀ k entry, rl.get? k = some entry →
        get_phone_number http entry.name = Except.ok entry.phone := by
  have hspec := resolve_recipients_ok hrl
  obtain ⟨tail, htl, _⟩ := resolve_recipients_cons_ok hpn hrl
  refine ⟨?_, hspec.1, hspec.2⟩
  subst htl
  unfold get_oncall_number
  rw [hsid]
  simp only [Bind.bind, Except.bind]
  rw [hoc]
  dsimp only
  rw [hrec]
  dsimp only [List.head?_cons]
  rw [hrl]
  rfl

/-- Witness for C10 at the concrete provider `envW` and schedule id "s4":
recipients are alice then carol, carol's phone list resolves to empty, yet
resolution succeeds and carol still gets her (empty) entry. -/
theorem c10_witness :
    get_oncall_number envW (ScheduleIdentifier.ScheduleById { id := "s4" }) =
        Except.ok infoS4 ∧
      infoS4.full_information.map UserPhoneNumber.name = ["alice", "carol"] :=
  ⟨(c10_only_first_phone_list_gates_failure envW
      (ScheduleIdentifier.ScheduleById { id := "s4" }) "s4"
      { data := { on_call_recipients := ["alice", "carol"] } } "alice" ["carol"]
      [{ name := "alice", phone := ["+12"] }, { name := "carol", phone := [] }] "+12" []
      (by decide) (by decide) (by decide) (by decide) (by decide)).1,
    by decide⟩

end Oncallhunter
